import Mathlib

/-!
Verification of the Synapse message bus (engram-memory/synapse).

This file is a shallow embedding of the core of the repository into Lean 4:

* `synapse/models.py`   — `MessageType`, `Priority`, `AgentStatus`,
  `SynapseMessage` (with `to_dict` / `from_dict`), `AgentInfo`, `Channel`;
* `synapse/storage.py`  — `MessageStore.store`, `MessageStore.cleanup_expired`;
* `synapse/registry.py` — `AgentRegistry.register`, `heartbeat`,
  `unregister`, `list_agents`, `check_timeouts`;
* `synapse/bus.py`      — `Subscription.matches`, `SynapseBus.create_channel`,
  `publish`, `get_inbox`, `get_history`, `stats`.

Modelling conventions:

* Python `dict`s used as keyed tables are insertion-ordered association
  lists (`List (String × β)`), with `lookupA` / `upsert` / `updateVal`
  mirroring `d.get`, `d[k] = v` and in-place update of a present key.
* `datetime` values are UTC timestamps measured in whole seconds, embedded
  as `Int`; `isoformat`/`fromisoformat` round-trip exactly in Python, so
  timestamp serialization is the identity on this embedding.
  `datetime.now(...)` is passed in explicitly as a `now : Int` parameter.
* Python callables supplied as subscription callbacks are functions
  `SynapseMessage → Except String Unit`; a `.error` result stands for the
  callable raising an exception.  `publish` discards the result, which is
  the translation of its `try/except`-and-log block.
* JSON payloads are structured key/value data (`List (String × String)`);
  `json.dumps`/`json.loads` round-trip is elided (payloads are stored
  structurally), which no claim inspects.
* Python list slicing `xs[-limit:]` with an `int` index is embedded by
  `pyDropSlice xs (-limit)` implementing Python's clamping rules for
  `xs[i:]`, including `xs[-0:] = xs`.
-/

/-- Lookup in an insertion-ordered association list (`d.get(k)`). -/
def lookupA {β : Type} (k : String) : List (String × β) → Option β
  | [] => none
  | (k', v) :: rest => if k' = k then some v else lookupA k rest

/-- `d[k] = v` on a Python dict: replace in place if the key is present,
otherwise append at the end (insertion order). -/
def upsert {β : Type} (k : String) (v : β) : List (String × β) → List (String × β)
  | [] => [(k, v)]
  | (k', v') :: rest => if k' = k then (k', v) :: rest else (k', v') :: upsert k v rest

/-- In-place update of the value stored under a (present) key. -/
def updateVal {β : Type} (k : String) (f : β → β) : List (String × β) → List (String × β)
  | [] => []
  | (k', v) :: rest => if k' = k then (k', f v) :: rest else (k', v) :: updateVal k f rest

/-- Python `xs[i:]` for an arbitrary integer index `i`: negative indices
count from the end and are clamped at `0`; nonnegative indices are clamped
at `len(xs)`.  In particular `xs[-0:] = xs[0:] = xs`. -/
def pyDropSlice {α : Type} (l : List α) (i : Int) : List α :=
  if i < 0 then l.drop (max 0 ((l.length : Int) + i)).toNat
  else l.drop (min (l.length : Int) i).toNat

/-! ## models.py -/

/-- `MessageType(str, Enum)` from `synapse/models.py`. -/
inductive MessageType
  | alert | data | command | query | response | event
  deriving DecidableEq, Repr

/-- The `.value` of a `MessageType` member: its lowercase string name. -/
def MessageType.value : MessageType → String
  | .alert => "alert"
  | .data => "data"
  | .command => "command"
  | .query => "query"
  | .response => "response"
  | .event => "event"

/-- The enum constructor `MessageType(s)`: returns the member whose value
is `s`, or fails (`ValueError`) on an unrecognized tag. -/
def MessageType.fromValue (s : String) : Option MessageType :=
  if s = "alert" then some .alert
  else if s = "data" then some .data
  else if s = "command" then some .command
  else if s = "query" then some .query
  else if s = "response" then some .response
  else if s = "event" then some .event
  else none

/-- `Priority(int, Enum)` from `synapse/models.py`: numerically ascending
from most urgent. -/
inductive Priority
  | critical | high | normal | low | background
  deriving DecidableEq, Repr

/-- The `.value` of a `Priority` member: its integer rank. -/
def Priority.value : Priority → Int
  | .critical => 0
  | .high => 1
  | .normal => 2
  | .low => 3
  | .background => 4

/-- The enum constructor `Priority(v)`. -/
def Priority.fromValue (v : Int) : Option Priority :=
  if v = 0 then some .critical
  else if v = 1 then some .high
  else if v = 2 then some .normal
  else if v = 3 then some .low
  else if v = 4 then some .background
  else none

/-- `AgentStatus(str, Enum)` from `synapse/models.py`. -/
inductive AgentStatus
  | online | offline | busy
  deriving DecidableEq, Repr

def AgentStatus.value : AgentStatus → String
  | .online => "online"
  | .offline => "offline"
  | .busy => "busy"

/-- `SynapseMessage` dataclass.  `payload` is structured key/value data;
`timestamp` is a UTC instant in seconds; `ttl = 0` means no expiry. -/
structure SynapseMessage where
  channel : String
  sender : String
  payload : List (String × String)
  type : MessageType
  priority : Priority
  id : String
  timestamp : Int
  ttl : Int
  reply_to : Option String
  deriving DecidableEq, Repr

/-- The wire-form record produced by `SynapseMessage.to_dict`:
enumerations appear as their serialized values (string name / integer
rank), the timestamp as its (identity-embedded) ISO form. -/
structure MessageDict where
  id : String
  channel : String
  sender : String
  type : String
  priority : Int
  payload : List (String × String)
  timestamp : Int
  ttl : Int
  reply_to : Option String
  deriving DecidableEq, Repr

/-- `SynapseMessage.to_dict` from `synapse/models.py`. -/
def SynapseMessage.to_dict (m : SynapseMessage) : MessageDict :=
  { id := m.id
    channel := m.channel
    sender := m.sender
    type := m.type.value
    priority := m.priority.value
    payload := m.payload
    timestamp := m.timestamp
    ttl := m.ttl
    reply_to := m.reply_to }

/-- `SynapseMessage.from_dict` from `synapse/models.py`.  The enum
constructors `MessageType(...)` / `Priority(...)` raise `ValueError` on an
unrecognized tag, embedded as `none`. -/
def SynapseMessage.from_dict (d : MessageDict) : Option SynapseMessage :=
  match MessageType.fromValue d.type, Priority.fromValue d.priority with
  | some t, some p =>
      some { id := d.id
             channel := d.channel
             sender := d.sender
             type := t
             priority := p
             payload := d.payload
             timestamp := d.timestamp
             ttl := d.ttl
             reply_to := d.reply_to }
  | _, _ => none

/-- `AgentInfo` dataclass. -/
structure AgentInfo where
  name : String
  capabilities : List String
  channels : List String
  status : AgentStatus
  registered_at : Int
  last_heartbeat : Int
  metadata : List (String × String)
  deriving DecidableEq, Repr

/-- `Channel` dataclass. -/
structure Channel where
  name : String
  description : String
  created_at : Int
  message_count : Nat
  deriving DecidableEq, Repr

/-! ## bus.py — Subscription -/

/-- A delivery callback: a Python callable that either returns (`.ok`) or
raises an exception (`.error`). -/
def Callback := SynapseMessage → Except String Unit

/-- `Subscription` from `synapse/bus.py`. -/
structure Subscription where
  agent_name : String
  channel : String
  callback : Option Callback
  priority_min : Priority
  type_filter : Option MessageType

/-- `Subscription.matches` from `synapse/bus.py` (lines 38–43).  Note that
`if self.type_filter` is a truthiness test: `None` is falsy and every
`MessageType` member (a nonempty string) is truthy. -/
def Subscription.matches (s : Subscription) (msg : SynapseMessage) : Bool :=
  if s.priority_min.value < msg.priority.value then false
  else
    match s.type_filter with
    | some tf => if msg.type ≠ tf then false else true
    | none => true

/-! ## storage.py -/

/-- A row of the `messages` table: the column values `MessageStore.store`
binds (`type` as `msg.type.value`, `priority` as `msg.priority.value`,
`payload` kept structurally in place of its JSON text). -/
structure StoredRow where
  id : String
  channel : String
  sender : String
  type : String
  priority : Int
  payload : List (String × String)
  timestamp : Int
  ttl : Int
  reply_to : Option String
  deriving DecidableEq, Repr

/-- The row `MessageStore.store` inserts for a message. -/
def rowOf (m : SynapseMessage) : StoredRow :=
  { id := m.id
    channel := m.channel
    sender := m.sender
    type := m.type.value
    priority := m.priority.value
    payload := m.payload
    timestamp := m.timestamp
    ttl := m.ttl
    reply_to := m.reply_to }

/-- The `messages` table, in insertion order.  `id` is the primary key. -/
structure StoreState where
  rows : List StoredRow
  deriving Repr

/-- `MessageStore.store` from `synapse/storage.py` (lines 50–73):
`INSERT OR IGNORE` keyed by the `id` primary key — a duplicate id leaves
the table unchanged — and `True` is returned in either case (the `False`
branch is reached only on an `sqlite3.Error`, outside this model). -/
def MessageStore.store (st : StoreState) (m : SynapseMessage) : Bool × StoreState :=
  if st.rows.any (fun r => r.id == m.id) then (true, st)
  else (true, { rows := st.rows ++ [rowOf m] })

/-- The `WHERE` clause of `MessageStore.cleanup_expired`: `ttl > 0 AND`
the age in whole seconds exceeds `ttl`.  (The SQL computes the age as
`CAST((julianday(now) - julianday(timestamp)) * 86400 AS INTEGER)`; with
timestamps at whole-second granularity this is exactly `now - timestamp`.) -/
def expiredRow (now : Int) (r : StoredRow) : Bool :=
  decide (0 < r.ttl) && decide (r.ttl < now - r.timestamp)

/-- `MessageStore.cleanup_expired` from `synapse/storage.py` (lines
119–131): deletes every expired row and returns the deleted count. -/
def MessageStore.cleanup_expired (now : Int) (st : StoreState) : Nat × StoreState :=
  ((st.rows.filter (expiredRow now)).length,
   { rows := st.rows.filter (fun r => !expiredRow now r) })

/-! ## registry.py -/

/-- `AgentRegistry` state: the `_agents` dict and `_heartbeat_timeout`. -/
structure RegistryState where
  agents : List (String × AgentInfo)
  heartbeat_timeout : Int
  deriving Repr

/-- `AgentRegistry.register` from `synapse/registry.py` (lines 20–48):
re-registering an existing name updates it in place (status online,
heartbeat refreshed, optional fields replaced when given); otherwise a
fresh online record is created (`capabilities or []` etc. embedded as
`Option.getD`). -/
def AgentRegistry.register (now : Int) (st : RegistryState) (name : String)
    (capabilities : Option (List String)) (channels : Option (List String))
    (metadata : Option (List (String × String))) : AgentInfo × RegistryState :=
  match lookupA name st.agents with
  | some agent0 =>
      let agent1 := { agent0 with status := AgentStatus.online, last_heartbeat := now }
      let agent2 := match capabilities with
        | some c => { agent1 with capabilities := c }
        | none => agent1
      let agent3 := match channels with
        | some c => { agent2 with channels := c }
        | none => agent2
      let agent4 := match metadata with
        | some md => { agent3 with metadata := md }
        | none => agent3
      (agent4, { st with agents := upsert name agent4 st.agents })
  | none =>
      let agent : AgentInfo :=
        { name := name
          capabilities := capabilities.getD []
          channels := channels.getD []
          status := AgentStatus.online
          registered_at := now
          last_heartbeat := now
          metadata := metadata.getD [] }
      (agent, { st with agents := st.agents ++ [(name, agent)] })

/-- `AgentRegistry.unregister`: marks a known agent offline (keeping the
record) and returns whether the name was known. -/
def AgentRegistry.unregister (st : RegistryState) (name : String) : Bool × RegistryState :=
  if (lookupA name st.agents).isSome then
    (true,
      { st with
          agents := updateVal name (fun a => { a with status := AgentStatus.offline }) st.agents })
  else (false, st)

/-- `AgentRegistry.heartbeat` from `synapse/registry.py` (lines 57–65):
refreshes a known agent (online, heartbeat now) or auto-registers an
unknown one; returns `True` on both paths. -/
def AgentRegistry.heartbeat (now : Int) (st : RegistryState) (name : String) :
    Bool × RegistryState :=
  if (lookupA name st.agents).isSome then
    (true,
      { st with
          agents :=
            updateVal name
              (fun a => { a with last_heartbeat := now, status := AgentStatus.online })
              st.agents })
  else
    (true, (AgentRegistry.register now st name none none none).2)

/-- `AgentRegistry.list_agents` from `synapse/registry.py` (lines 70–74):
all registered agents, optionally filtered by status. -/
def AgentRegistry.list_agents (st : RegistryState) (status : Option AgentStatus) :
    List AgentInfo :=
  let agents := st.agents.map (fun p => p.2)
  match status with
  | some s => agents.filter (fun a => a.status == s)
  | none => agents

/-- The per-agent condition of `AgentRegistry.check_timeouts`: currently
online and `now - last_heartbeat > timeout`. -/
def timedOutP (now timeout : Int) (a : AgentInfo) : Bool :=
  a.status == AgentStatus.online && decide (timeout < now - a.last_heartbeat)

/-- `AgentRegistry.check_timeouts` from `synapse/registry.py` (lines
83–93).  The Python loop walks `_agents` once, flipping each timed-out
online agent to offline and collecting its name; the flip of one agent
never affects another's condition (which reads only pre-loop values), so
the loop is embedded as a `filterMap` for the names and a `map` for the
state update, both driven by the same pre-state condition. -/
def AgentRegistry.check_timeouts (now : Int) (st : RegistryState) :
    List String × RegistryState :=
  (st.agents.filterMap
      (fun p => if timedOutP now st.heartbeat_timeout p.2 then some p.2.name else none),
   { st with
      agents :=
        st.agents.map (fun p =>
          if timedOutP now st.heartbeat_timeout p.2
          then (p.1, { p.2 with status := AgentStatus.offline }) else p) })

/-! ## bus.py — SynapseBus -/

/-- `self._max_history = 1000` in `SynapseBus.__init__`. -/
def maxHistory : Nat := 1000

/-- `self._max_inbox = 100` in `SynapseBus.__init__`. -/
def maxInbox : Nat := 100

/-- The mutable state of a `SynapseBus` (registry, optional storage,
`_channels`, `_subscriptions`, `_message_history`, `_inbox`). -/
structure BusState where
  registry : RegistryState
  storage : Option StoreState
  channels : List (String × Channel)
  subscriptions : List (String × List Subscription)
  message_history : List SynapseMessage
  inbox : List (String × List SynapseMessage)

/-- `SynapseBus.create_channel`: idempotent — an existing name is left
untouched (original description preserved), a new one is appended with
`message_count = 0`. -/
def SynapseBus.create_channel (now : Int) (st : BusState) (name description : String) :
    BusState :=
  if (lookupA name st.channels).isSome then st
  else
    { st with
        channels := st.channels ++
          [(name, { name := name, description := description, created_at := now,
                    message_count := 0 })] }

/-- One inbox append of `SynapseBus.publish` (lines 133–137): append the
message, then if the inbox exceeds `_max_inbox` keep only the trailing
`_max_inbox` entries (`inbox[-self._max_inbox:]`, FIFO eviction). -/
def boundInbox (l : List SynapseMessage) (m : SynapseMessage) : List SynapseMessage :=
  let inbox := l ++ [m]
  if maxInbox < inbox.length then inbox.drop (inbox.length - maxInbox) else inbox

/-- The history append of `SynapseBus.publish` (lines 123–125): truncate
to the trailing `_max_history` entries once the bound is exceeded. -/
def boundHistory (l : List SynapseMessage) : List SynapseMessage :=
  if maxHistory < l.length then l.drop (l.length - maxHistory) else l

/-- The body of `publish`'s delivery loop for one subscription: skip
non-matching subscriptions; otherwise append to the agent's bounded
inbox, fire the callback — whose outcome, exception included, is caught
and never read — and count the delivery. -/
def deliverOne (msg : SynapseMessage) (acc : Nat × List (String × List SynapseMessage))
    (sub : Subscription) : Nat × List (String × List SynapseMessage) :=
  if sub.matches msg then
    let newInbox := boundInbox ((lookupA sub.agent_name acc.2).getD []) msg
    let _cb := sub.callback.map (fun f => f msg)
    (acc.1 + 1, upsert sub.agent_name newInbox acc.2)
  else acc

/-- Steps (a)–(c) of `SynapseBus.publish`: auto-create the channel, bump
its `message_count`, append the message to the bounded in-memory
history.  (Neither step touches registry, storage, subscriptions or
inboxes.) -/
def SynapseBus.afterHistory (now : Int) (st : BusState) (msg : SynapseMessage) : BusState :=
  { st with
      channels :=
        updateVal msg.channel (fun ch => { ch with message_count := ch.message_count + 1 })
          (SynapseBus.create_channel now st msg.channel "").channels
      message_history := boundHistory (st.message_history ++ [msg]) }

/-- `SynapseBus.publish` from `synapse/bus.py` (lines 115–158): channel
bookkeeping and history append, then the delivery loop over the channel's
subscriptions (`self._subscriptions.get(msg.channel, [])`), then
best-effort persistence (`if self.storage: self.storage.store(msg)`,
return value ignored); returns the number of matching subscriptions. -/
def SynapseBus.publish (now : Int) (st : BusState) (msg : SynapseMessage) :
    Nat × BusState :=
  let st3 := SynapseBus.afterHistory now st msg
  let r := ((lookupA msg.channel st3.subscriptions).getD []).foldl (deliverOne msg) (0, st3.inbox)
  match st3.storage with
  | some s => (r.1, { st3 with inbox := r.2, storage := some (MessageStore.store s msg).2 })
  | none => (r.1, { st3 with inbox := r.2 })

/-- Sequential publishes of a list of messages. -/
def SynapseBus.publishAll (now : Int) (st : BusState) (msgs : List SynapseMessage) : BusState :=
  msgs.foldl (fun s m => (SynapseBus.publish now s m).2) st

/-- `SynapseBus.get_inbox` (lines 170–174).  `if channel:` is a Python
truthiness test, false for `None` and for the empty string; the final
`msgs[-limit:]` is the Python slice. -/
def SynapseBus.get_inbox (st : BusState) (agent_name : String) (limit : Int)
    (channel : Option String) : List SynapseMessage :=
  let msgs := (lookupA agent_name st.inbox).getD []
  let msgs := match channel with
    | some c => if c = "" then msgs else msgs.filter (fun m => m.channel == c)
    | none => msgs
  pyDropSlice msgs (-limit)

/-- `SynapseBus.get_history` (lines 181–192); `since` is a `datetime`,
which is always truthy, so `if since:` tests only presence. -/
def SynapseBus.get_history (st : BusState) (channel : Option String) (limit : Int)
    (since : Option Int) : List SynapseMessage :=
  let msgs := st.message_history
  let msgs := match channel with
    | some c => if c = "" then msgs else msgs.filter (fun m => m.channel == c)
    | none => msgs
  let msgs := match since with
    | some t => msgs.filter (fun m => decide (t ≤ m.timestamp))
    | none => msgs
  pyDropSlice msgs (-limit)

/-- The summary record returned by `SynapseBus.stats`. -/
structure BusStats where
  channels : Nat
  subscriptions : Nat
  agents_online : Nat
  messages_total : Nat
  history_size : Nat
  deriving DecidableEq, Repr

/-- `SynapseBus.stats` (lines 194–201).  Note the `agents_online` field
is computed as `len(self.registry.list_agents())` — no status filter. -/
def SynapseBus.stats (st : BusState) : BusStats :=
  { channels := st.channels.length
    subscriptions := (st.subscriptions.map (fun p => p.2.length)).sum
    agents_online := (AgentRegistry.list_agents st.registry none).length
    messages_total := (st.channels.map (fun p => p.2.message_count)).sum
    history_size := st.message_history.length }

/-- The subscriptions `publish` iterates over for a channel. -/
def subsOf (st : BusState) (c : String) : List Subscription :=
  (lookupA c st.subscriptions).getD []

/-- An agent's current inbox. -/
def inboxOf (st : BusState) (a : String) : List SynapseMessage :=
  (lookupA a st.inbox).getD []

/-- A channel's `message_count` (0 when the channel does not exist). -/
def msgCount (st : BusState) (c : String) : Nat :=
  ((lookupA c st.channels).map Channel.message_count).getD 0

/-! Concrete states used to instantiate the hypotheses of the claims. -/

/-- A subscription whose callback always raises. -/
def subFail : Subscription :=
  { agent_name := "tess"
    channel := "#alerts"
    callback := some (fun _ => Except.error "boom")
    priority_min := Priority.background
    type_filter := none }

/-- A concrete alert message on `#alerts`. -/
def mC3 : SynapseMessage :=
  { channel := "#alerts"
    sender := "genesis"
    payload := [("reason", "crash")]
    type := MessageType.alert
    priority := Priority.critical
    id := "f00dfeed0001"
    timestamp := 500
    ttl := 0
    reply_to := none }

/-- A bus whose only subscription on `#alerts` has a raising callback. -/
def stC3 : BusState :=
  { registry := { agents := [], heartbeat_timeout := 60 }
    storage := none
    channels := []
    subscriptions := [("#alerts", [subFail])]
    message_history := []
    inbox := [] }

/-- A subscription with default filters (matches every message). -/
def subC4 : Subscription :=
  { agent_name := "a"
    channel := "#m"
    callback := none
    priority_min := Priority.background
    type_filter := none }

/-- A concrete event message on `#m`. -/
def mC4 : SynapseMessage :=
  { channel := "#m"
    sender := "s"
    payload := []
    type := MessageType.event
    priority := Priority.normal
    id := "0123456789ab"
    timestamp := 0
    ttl := 0
    reply_to := none }

/-- A bus with the single subscription `subC4` on channel `#m` and an
empty inbox for agent `a`. -/
def stC4 : BusState :=
  { registry := { agents := [], heartbeat_timeout := 60 }
    storage := none
    channels := []
    subscriptions := [("#m", [subC4])]
    message_history := []
    inbox := [] }

/-- A registry whose one agent was registered and then unregistered: the
record survives with status offline, so zero agents are online. -/
def registryC9 : RegistryState :=
  (AgentRegistry.unregister
    (AgentRegistry.register 0 { agents := [], heartbeat_timeout := 60 } "ghost"
      none none none).2 "ghost").2

/-- A bus over `registryC9`: one registered agent, none of them online. -/
def busC9 : BusState :=
  { registry := registryC9
    storage := none
    channels := []
    subscriptions := []
    message_history := []
    inbox := [] }

/-- A bus with a nonempty inbox and history, for instantiating C10. -/
def busC10 : BusState :=
  { registry := { agents := [], heartbeat_timeout := 60 }
    storage := none
    channels := []
    subscriptions := []
    message_history := [mC3, mC4]
    inbox := [("a", [mC4, mC3])] }

/-- Concrete message used to instantiate C5's freshness hypothesis. -/
def mC5 : SynapseMessage :=
  { channel := "#alerts"
    sender := "tess"
    payload := [("x", "1")]
    type := MessageType.alert
    priority := Priority.high
    id := "abc123def456"
    timestamp := 1000
    ttl := 10
    reply_to := none }

/-! ## Lemmas and claim theorems -/

theorem lookupA_upsert_self {β : Type} (k : String) (v : β) (l : List (String × β)) :
    lookupA k (upsert k v l) = some v := by
  induction l with
  | nil => simp [upsert, lookupA]
  | cons p rest ih =>
    obtain ⟨k', v'⟩ := p
    by_cases h : k' = k <;> simp [upsert, lookupA, h, ih]

theorem lookupA_upsert_ne {β : Type} (k k' : String) (v : β) (l : List (String × β))
    (h : k ≠ k') : lookupA k' (upsert k v l) = lookupA k' l := by
  induction l with
  | nil => simp [upsert, lookupA, h]
  | cons p rest ih =>
    obtain ⟨k₀, v₀⟩ := p
    by_cases h₀ : k₀ = k
    · subst h₀
      simp [upsert, lookupA, h]
    · simp [upsert, lookupA, h₀, ih]

theorem lookupA_updateVal_self {β : Type} (k : String) (f : β → β)
    (l : List (String × β)) :
    lookupA k (updateVal k f l) = (lookupA k l).map f := by
  induction l with
  | nil => simp [updateVal, lookupA]
  | cons p rest ih =>
    obtain ⟨k', v'⟩ := p
    by_cases h : k' = k <;> simp [updateVal, lookupA, h, ih]

theorem lookupA_append {β : Type} (k : String) (l₁ l₂ : List (String × β)) :
    lookupA k (l₁ ++ l₂) = ((lookupA k l₁).or (lookupA k l₂)) := by
  induction l₁ with
  | nil => simp [lookupA]
  | cons p rest ih =>
    obtain ⟨k', v'⟩ := p
    by_cases h : k' = k <;> simp [lookupA, h, ih]

theorem pyDropSlice_zero {α : Type} (l : List α) : pyDropSlice l 0 = l := by
  simp [pyDropSlice]

theorem messageType_fromValue_value (t : MessageType) :
    MessageType.fromValue t.value = some t := by
  cases t <;> simp [MessageType.fromValue, MessageType.value]

theorem priority_fromValue_value (p : Priority) :
    Priority.fromValue p.value = some p := by
  cases p <;> simp [Priority.fromValue, Priority.value]

/-- C1: a message matches a subscription iff `msg.priority.value ≤
priority_min.value` and the type filter is unset or equal to the message's
type; in particular `priority_min = NORMAL` (with no type filter) matches
exactly CRITICAL/HIGH/NORMAL, and `type_filter = ALERT` matches exactly
the ALERT messages that clear the priority floor. -/
theorem claim_c1_subscription_matching :
    (∀ (s : Subscription) (m : SynapseMessage),
      s.matches m = true ↔
        (m.priority.value ≤ s.priority_min.value ∧
          (s.type_filter = none ∨ s.type_filter = some m.type))) ∧
    (∀ (a c : String) (cb : Option Callback) (m : SynapseMessage),
      (Subscription.mk a c cb Priority.normal none).matches m = true ↔
        (m.priority = .critical ∨ m.priority = .high ∨ m.priority = .normal)) ∧
    (∀ (a c : String) (cb : Option Callback) (pm : Priority) (m : SynapseMessage),
      (Subscription.mk a c cb pm (some MessageType.alert)).matches m = true ↔
        (m.type = .alert ∧ m.priority.value ≤ pm.value)) := by
  refine ⟨fun s m => ?_, fun a c cb m => ?_, fun a c cb pm m => ?_⟩
  · unfold Subscription.matches
    rcases s.type_filter with _ | tf
    · by_cases hlt : s.priority_min.value < m.priority.value <;> simp [hlt] <;> omega
    · have h2 : (tf = m.type) ↔ (m.type = tf) := eq_comm
      by_cases hlt : s.priority_min.value < m.priority.value <;>
        by_cases h : m.type = tf <;>
        simp [hlt, h, h2] <;> try omega
  · unfold Subscription.matches
    cases hp : m.priority <;> simp [hp, Priority.value]
  · unfold Subscription.matches
    by_cases h : m.type = MessageType.alert <;>
      by_cases hlt : pm.value < m.priority.value <;>
      simp [h, hlt, Priority.value] <;> try omega

/-- C8: serializing a message to its wire form and parsing it back yields
the original message, field for field (id, timestamp, and enumerations
included). -/
theorem claim_c8_wire_round_trip (m : SynapseMessage) :
    SynapseMessage.from_dict m.to_dict = some m := by
  cases m with
  | mk channel sender payload type priority id timestamp ttl reply_to =>
    simp [SynapseMessage.to_dict, SynapseMessage.from_dict,
      messageType_fromValue_value, priority_fromValue_value]

theorem store_fst (st : StoreState) (m : SynapseMessage) :
    (MessageStore.store st m).1 = true := by
  unfold MessageStore.store
  split <;> rfl

theorem timedOutP_eq_true (now t : Int) (a : AgentInfo) :
    timedOutP now t a = true ↔
      (a.status = AgentStatus.online ∧ t < now - a.last_heartbeat) := by
  simp [timedOutP]

/-- C5: `store` is keyed by message id and idempotent — a second `store`
of the same id returns `true` and leaves the table untouched, and a fresh
insert leaves exactly one row (the first insert's) under that id; and
`cleanup_expired` keeps exactly the rows that are not (`ttl > 0` with age
beyond `ttl`), so a `ttl = 0` row is never deleted. -/
theorem claim_c5_store_idempotent_and_ttl_cleanup :
    ∀ (st : StoreState) (m : SynapseMessage) (now : Int),
      (MessageStore.store st m).1 = true ∧
      (MessageStore.store (MessageStore.store st m).2 m).1 = true ∧
      (MessageStore.store (MessageStore.store st m).2 m).2 = (MessageStore.store st m).2 ∧
      (st.rows.any (fun r => r.id == m.id) = false →
        ((MessageStore.store st m).2.rows.filter (fun r => r.id == m.id)) = [rowOf m]) ∧
      (∀ r : StoredRow, r ∈ (MessageStore.cleanup_expired now st).2.rows ↔
        (r ∈ st.rows ∧ ¬(0 < r.ttl ∧ r.ttl < now - r.timestamp))) := by
  intro st m now
  refine ⟨store_fst st m, store_fst _ m, ?_, ?_, ?_⟩
  · by_cases h : st.rows.any (fun r => r.id == m.id) = true
    · simp [MessageStore.store, h]
    · have h' : st.rows.any (fun r => r.id == m.id) = false := by
        simpa using h
      have hany : (st.rows ++ [rowOf m]).any (fun r => r.id == m.id) = true := by
        simp [List.any_append, rowOf]
      simp [MessageStore.store, h', hany]
  · intro hfresh
    simp only [MessageStore.store, hfresh, Bool.false_eq_true, if_false]
    rw [List.filter_append]
    have h1 : st.rows.filter (fun r => r.id == m.id) = [] := by
      rw [List.filter_eq_nil_iff]
      intro r hr
      have := (List.any_eq_false.mp hfresh) r hr
      simpa using this
    rw [h1]
    simp [rowOf]
  · intro r
    simp only [MessageStore.cleanup_expired, List.mem_filter, expiredRow]
    constructor
    · rintro ⟨hr, hb⟩
      refine ⟨hr, ?_⟩
      intro hP
      simp [hP.1, hP.2] at hb
    · rintro ⟨hr, hP⟩
      refine ⟨hr, ?_⟩
      simp only [Bool.not_eq_true', Bool.and_eq_false_iff, decide_eq_false_iff_not]
      by_cases h1 : 0 < r.ttl
      · exact Or.inr (fun h2 => hP ⟨h1, h2⟩)
      · exact Or.inl h1

theorem claim_c5_witness :
    ((MessageStore.store { rows := [] } mC5).2.rows.filter (fun r => r.id == mC5.id)) =
      [rowOf mC5] :=
  (claim_c5_store_idempotent_and_ttl_cleanup { rows := [] } mC5 0).2.2.2.1 (by rfl)

/-- C6: `heartbeat` always returns `true`; afterwards the name is
registered with status online and `last_heartbeat` refreshed to `now`,
whether the name was previously known (in-place update) or not
(auto-registration of a fresh record). -/
theorem claim_c6_heartbeat_always_succeeds :
    ∀ (now : Int) (st : RegistryState) (name : String),
      (AgentRegistry.heartbeat now st name).1 = true ∧
      ∃ a : AgentInfo,
        lookupA name (AgentRegistry.heartbeat now st name).2.agents = some a ∧
        a.status = AgentStatus.online ∧ a.last_heartbeat = now := by
  intro now st name
  refine ⟨?_, ?_⟩
  · unfold AgentRegistry.heartbeat
    split <;> rfl
  · rcases hlk : lookupA name st.agents with _ | a0
    · have hs : (lookupA name st.agents).isSome = false := by simp [hlk]
      simp only [AgentRegistry.heartbeat, hs, Bool.false_eq_true, if_false,
        AgentRegistry.register, hlk]
      have h2 : lookupA name (st.agents ++ [(name,
          { name := name, capabilities := ([] : List String), channels := ([] : List String),
            status := AgentStatus.online, registered_at := now, last_heartbeat := now,
            metadata := ([] : List (String × String)) })]) = some
          { name := name, capabilities := ([] : List String), channels := ([] : List String),
            status := AgentStatus.online, registered_at := now, last_heartbeat := now,
            metadata := ([] : List (String × String)) } := by
        rw [lookupA_append, hlk]
        simp [lookupA]
      exact ⟨_, h2, rfl, rfl⟩
    · have hs : (lookupA name st.agents).isSome = true := by simp [hlk]
      simp only [AgentRegistry.heartbeat, hs, if_true]
      have h2 : lookupA name (updateVal name
          (fun a => { a with last_heartbeat := now, status := AgentStatus.online }) st.agents) =
          some { a0 with last_heartbeat := now, status := AgentStatus.online } := by
        rw [lookupA_updateVal_self, hlk]
        rfl
      exact ⟨_, h2, rfl, rfl⟩

/-- C7: `check_timeouts` returns exactly the names of the currently-online
agents whose heartbeat lapsed beyond the timeout, and the updated registry
flips exactly those agents to offline, leaving every other record (online
agents heartbeaten within the window included) unchanged. -/
theorem claim_c7_check_timeouts_exact :
    ∀ (now : Int) (st : RegistryState),
      (∀ n : String,
        n ∈ (AgentRegistry.check_timeouts now st).1 ↔
          ∃ p : String × AgentInfo, p ∈ st.agents ∧ p.2.name = n ∧
            p.2.status = AgentStatus.online ∧
            st.heartbeat_timeout < now - p.2.last_heartbeat) ∧
      (∀ q : String × AgentInfo,
        q ∈ (AgentRegistry.check_timeouts now st).2.agents ↔
          ∃ p : String × AgentInfo, p ∈ st.agents ∧
            ((p.2.status = AgentStatus.online ∧
                st.heartbeat_timeout < now - p.2.last_heartbeat ∧
                q = (p.1, { p.2 with status := AgentStatus.offline })) ∨
             (¬(p.2.status = AgentStatus.online ∧
                st.heartbeat_timeout < now - p.2.last_heartbeat) ∧ q = p))) := by
  intro now st
  constructor
  · intro n
    simp only [AgentRegistry.check_timeouts]
    rw [List.mem_filterMap]
    constructor
    · rintro ⟨p, hp, hf⟩
      by_cases hb : timedOutP now st.heartbeat_timeout p.2 = true
      · rw [if_pos hb] at hf
        obtain ⟨hstat, hlt⟩ := (timedOutP_eq_true now st.heartbeat_timeout p.2).mp hb
        exact ⟨p, hp, Option.some.inj hf, hstat, hlt⟩
      · rw [if_neg hb] at hf
        cases hf
    · rintro ⟨p, hp, hname, hstat, hlt⟩
      refine ⟨p, hp, ?_⟩
      rw [if_pos ((timedOutP_eq_true now st.heartbeat_timeout p.2).mpr ⟨hstat, hlt⟩)]
      exact congrArg some hname
  · intro q
    simp only [AgentRegistry.check_timeouts]
    rw [List.mem_map]
    constructor
    · rintro ⟨p, hp, hf⟩
      by_cases hb : timedOutP now st.heartbeat_timeout p.2 = true
      · rw [if_pos hb] at hf
        obtain ⟨hstat, hlt⟩ := (timedOutP_eq_true now st.heartbeat_timeout p.2).mp hb
        exact ⟨p, hp, Or.inl ⟨hstat, hlt, hf.symm⟩⟩
      · rw [if_neg hb] at hf
        refine ⟨p, hp, Or.inr ⟨?_, hf.symm⟩⟩
        exact fun hP => hb ((timedOutP_eq_true now st.heartbeat_timeout p.2).mpr hP)
    · rintro ⟨p, hp, (⟨hstat, hlt, hq⟩ | ⟨hnot, hq⟩)⟩
      · refine ⟨p, hp, ?_⟩
        rw [if_pos ((timedOutP_eq_true now st.heartbeat_timeout p.2).mpr ⟨hstat, hlt⟩)]
        exact hq.symm
      · refine ⟨p, hp, ?_⟩
        rw [if_neg (fun hb =>
          hnot ((timedOutP_eq_true now st.heartbeat_timeout p.2).mp hb))]
        exact hq.symm

theorem afterHistory_storage (now : Int) (st : BusState) (msg : SynapseMessage) :
    (SynapseBus.afterHistory now st msg).storage = st.storage := rfl

theorem afterHistory_subscriptions (now : Int) (st : BusState) (msg : SynapseMessage) :
    (SynapseBus.afterHistory now st msg).subscriptions = st.subscriptions := rfl

theorem afterHistory_inbox (now : Int) (st : BusState) (msg : SynapseMessage) :
    (SynapseBus.afterHistory now st msg).inbox = st.inbox := rfl

theorem publish_fst (now : Int) (st : BusState) (msg : SynapseMessage) :
    (SynapseBus.publish now st msg).1 =
      ((subsOf st msg.channel).foldl (deliverOne msg) (0, st.inbox)).1 := by
  unfold SynapseBus.publish
  rcases hst : st.storage with _ | s <;>
    simp [afterHistory_storage, afterHistory_subscriptions, afterHistory_inbox, hst, subsOf]

theorem publish_snd_inbox (now : Int) (st : BusState) (msg : SynapseMessage) :
    (SynapseBus.publish now st msg).2.inbox =
      ((subsOf st msg.channel).foldl (deliverOne msg) (0, st.inbox)).2 := by
  unfold SynapseBus.publish
  rcases hst : st.storage with _ | s <;>
    simp [afterHistory_storage, afterHistory_subscriptions, afterHistory_inbox, hst, subsOf]

theorem publish_snd_subscriptions (now : Int) (st : BusState) (msg : SynapseMessage) :
    (SynapseBus.publish now st msg).2.subscriptions = st.subscriptions := by
  unfold SynapseBus.publish
  rcases hst : st.storage with _ | s <;> simp [afterHistory_storage, hst] <;> rfl

theorem publish_snd_history (now : Int) (st : BusState) (msg : SynapseMessage) :
    (SynapseBus.publish now st msg).2.message_history =
      boundHistory (st.message_history ++ [msg]) := by
  unfold SynapseBus.publish
  rcases hst : st.storage with _ | s <;> simp [afterHistory_storage, hst] <;> rfl

theorem publish_snd_channels (now : Int) (st : BusState) (msg : SynapseMessage) :
    (SynapseBus.publish now st msg).2.channels =
      updateVal msg.channel (fun ch => { ch with message_count := ch.message_count + 1 })
        (SynapseBus.create_channel now st msg.channel "").channels := by
  unfold SynapseBus.publish
  rcases hst : st.storage with _ | s <;> simp [afterHistory_storage, hst] <;> rfl

theorem deliverOne_pos (msg : SynapseMessage) (acc : Nat × List (String × List SynapseMessage))
    (sub : Subscription) (h : sub.matches msg = true) :
    deliverOne msg acc sub =
      (acc.1 + 1,
        upsert sub.agent_name (boundInbox ((lookupA sub.agent_name acc.2).getD []) msg) acc.2) := by
  simp [deliverOne, h]

theorem deliverOne_neg (msg : SynapseMessage) (acc : Nat × List (String × List SynapseMessage))
    (sub : Subscription) (h : sub.matches msg = false) :
    deliverOne msg acc sub = acc := by
  simp [deliverOne, h]

theorem foldl_deliverOne_fst (msg : SynapseMessage) (subs : List Subscription) :
    ∀ (n : Nat) (ib : List (String × List SynapseMessage)),
      (subs.foldl (deliverOne msg) (n, ib)).1 =
        n + subs.countP (fun s => s.matches msg) := by
  induction subs with
  | nil => intro n ib; simp
  | cons s rest ih =>
    intro n ib
    rw [List.foldl_cons, List.countP_cons]
    by_cases h : s.matches msg = true
    · rw [deliverOne_pos msg (n, ib) s h, ih]
      simp [h]
      omega
    · rw [deliverOne_neg msg (n, ib) s (by simpa using h), ih]
      simp [h]

theorem drop_append_single {α : Type} (l : List α) (m : α) (k : Nat) (hk : k ≤ l.length) :
    (l ++ [m]).drop k = l.drop k ++ [m] := by
  rw [List.drop_append_eq_append_drop]
  have h0 : k - l.length = 0 := by omega
  simp [h0]

theorem boundInbox_getLast (l : List SynapseMessage) (m : SynapseMessage) :
    (boundInbox l m).getLast? = some m := by
  have hM : maxInbox = 100 := rfl
  simp only [boundInbox]
  split
  · rename_i h
    have hk : (l ++ [m]).length - maxInbox ≤ l.length := by
      simp only [List.length_append, List.length_singleton] at h ⊢
      omega
    rw [drop_append_single _ _ _ hk, List.getLast?_concat]
  · rw [List.getLast?_concat]

theorem boundInbox_eq_drop (l : List SynapseMessage) (m : SynapseMessage) :
    boundInbox l m = (l ++ [m]).drop ((l ++ [m]).length - maxInbox) := by
  simp only [boundInbox]
  split
  · rfl
  · rename_i h
    have h0 : l.length + 1 - maxInbox = 0 := by
      simp only [List.length_append, List.length_singleton] at h
      omega
    simp [h0]

theorem takeLastMax_append (xs ys : List SynapseMessage) :
    (xs.drop (xs.length - maxInbox) ++ ys).drop
        ((xs.drop (xs.length - maxInbox) ++ ys).length - maxInbox) =
      (xs ++ ys).drop ((xs ++ ys).length - maxInbox) := by
  rw [List.drop_append_eq_append_drop, List.drop_append_eq_append_drop, List.drop_drop]
  have h1 : xs.length - maxInbox +
      ((List.drop (xs.length - maxInbox) xs ++ ys).length - maxInbox) =
      (xs ++ ys).length - maxInbox := by
    simp only [List.length_append, List.length_drop]
    omega
  have h2 : (List.drop (xs.length - maxInbox) xs ++ ys).length - maxInbox -
      (List.drop (xs.length - maxInbox) xs).length =
      (xs ++ ys).length - maxInbox - xs.length := by
    simp only [List.length_append, List.length_drop]
    omega
  rw [h1, h2]

theorem foldl_boundInbox (msgs : List SynapseMessage) :
    ∀ init : List SynapseMessage, init.length ≤ maxInbox →
      msgs.foldl boundInbox init =
        (init ++ msgs).drop ((init ++ msgs).length - maxInbox) := by
  induction msgs with
  | nil =>
    intro init h
    have h0 : init.length - maxInbox = 0 := by omega
    simp [h0]
  | cons m rest ih =>
    intro init h
    rw [List.foldl_cons, boundInbox_eq_drop,
      ih _ (by simp only [List.length_drop]; omega)]
    have := takeLastMax_append (init ++ [m]) rest
    simpa [List.append_assoc] using this

theorem publish_msgCount (now : Int) (st : BusState) (msg : SynapseMessage) :
    msgCount (SynapseBus.publish now st msg).2 msg.channel = msgCount st msg.channel + 1 := by
  unfold msgCount
  rw [publish_snd_channels, lookupA_updateVal_self]
  rcases hch : lookupA msg.channel st.channels with _ | ch
  · unfold SynapseBus.create_channel
    rw [if_neg (by simp [hch])]
    simp only
    rw [lookupA_append, hch]
    simp [lookupA]
  · unfold SynapseBus.create_channel
    rw [if_pos (by simp [hch])]
    rw [hch]
    simp

theorem boundHistory_filter_getLast (h : List SynapseMessage) (msg : SynapseMessage) :
    ((boundHistory (h ++ [msg])).filter (fun m => m.channel == msg.channel)).getLast? =
      some msg := by
  have hM : maxHistory = 1000 := rfl
  unfold boundHistory
  split
  · rename_i hlen
    have hk : (h ++ [msg]).length - maxHistory ≤ h.length := by
      simp only [List.length_append, List.length_singleton] at hlen ⊢
      omega
    rw [drop_append_single _ _ _ hk, List.filter_append]
    simp
  · rw [List.filter_append]
    simp

/-- C2: publishing `msg` bumps `msg.channel`'s `message_count` by exactly
one, leaves `msg` as the last element of the in-memory history restricted
to that channel, and returns the number of subscriptions on the channel
that match `msg` (independent of any callback outcome). -/
theorem claim_c2_publish_counts_and_history :
    ∀ (now : Int) (st : BusState) (msg : SynapseMessage),
      msgCount (SynapseBus.publish now st msg).2 msg.channel = msgCount st msg.channel + 1 ∧
      ((SynapseBus.publish now st msg).2.message_history.filter
          (fun m => m.channel == msg.channel)).getLast? = some msg ∧
      (SynapseBus.publish now st msg).1 =
        (subsOf st msg.channel).countP (fun s => s.matches msg) := by
  intro now st msg
  refine ⟨publish_msgCount now st msg, ?_, ?_⟩
  · rw [publish_snd_history]
    exact boundHistory_filter_getLast _ _
  · rw [publish_fst, foldl_deliverOne_fst]
    simp

theorem foldl_deliverOne_last_preserved (msg : SynapseMessage) (subs : List Subscription) :
    ∀ (acc : Nat × List (String × List SynapseMessage)) (a : String),
      ((lookupA a acc.2).getD []).getLast? = some msg →
      ((lookupA a (subs.foldl (deliverOne msg) acc).2).getD []).getLast? = some msg := by
  induction subs with
  | nil => intro acc a h; exact h
  | cons s rest ih =>
    intro acc a h
    rw [List.foldl_cons]
    apply ih
    by_cases hm : s.matches msg = true
    · rw [deliverOne_pos msg acc s hm]
      by_cases ha : s.agent_name = a
      · subst ha
        rw [lookupA_upsert_self]
        simpa using boundInbox_getLast _ msg
      · rw [lookupA_upsert_ne _ _ _ _ ha]
        exact h
    · rw [deliverOne_neg msg acc s (by simpa using hm)]
      exact h

theorem foldl_deliverOne_delivers (msg : SynapseMessage) (subs : List Subscription)
    (acc : Nat × List (String × List SynapseMessage)) (sub : Subscription)
    (hmem : sub ∈ subs) (hm : sub.matches msg = true) :
    ((lookupA sub.agent_name (subs.foldl (deliverOne msg) acc).2).getD []).getLast? =
      some msg := by
  obtain ⟨pre, post, rfl⟩ := List.append_of_mem hmem
  rw [List.foldl_append, List.foldl_cons]
  apply foldl_deliverOne_last_preserved
  rw [deliverOne_pos msg _ sub hm, lookupA_upsert_self]
  simpa using boundInbox_getLast _ msg

/-- C3: when some matching subscription's callback raises on `msg`, the
exception is contained: `publish` (a total function here — the `except`
block never lets the callback outcome escape) still returns the full
count of matching subscriptions, the raising subscriber included, and the
message still lands as the newest inbox entry of every matching
subscriber. -/
theorem claim_c3_hook_failure_contained :
    ∀ (now : Int) (st : BusState) (msg : SynapseMessage),
      (∃ sub ∈ subsOf st msg.channel, sub.matches msg = true ∧
        ∃ f : Callback, sub.callback = some f ∧ ∃ e : String, f msg = Except.error e) →
      (SynapseBus.publish now st msg).1 =
        (subsOf st msg.channel).countP (fun s => s.matches msg) ∧
      ∀ sub ∈ subsOf st msg.channel, sub.matches msg = true →
        (inboxOf (SynapseBus.publish now st msg).2 sub.agent_name).getLast? = some msg := by
  intro now st msg _hfail
  constructor
  · rw [publish_fst, foldl_deliverOne_fst]
    simp
  · intro sub hmem hm
    unfold inboxOf
    rw [publish_snd_inbox]
    exact foldl_deliverOne_delivers msg _ _ sub hmem hm

theorem claim_c3_witness :
    (SynapseBus.publish 0 stC3 mC3).1 =
      (subsOf stC3 mC3.channel).countP (fun s => s.matches mC3) ∧
    ∀ sub ∈ subsOf stC3 mC3.channel, sub.matches mC3 = true →
      (inboxOf (SynapseBus.publish 0 stC3 mC3).2 sub.agent_name).getLast? = some mC3 :=
  claim_c3_hook_failure_contained 0 stC3 mC3
    ⟨subFail, by simp [subsOf, stC3, lookupA, mC3], rfl,
      fun _ => Except.error "boom", rfl, "boom", rfl⟩

theorem publish_inbox_single (now : Int) (st : BusState) (msg : SynapseMessage)
    (sub : Subscription) (hsub : lookupA msg.channel st.subscriptions = some [sub])
    (hm : sub.matches msg = true) :
    inboxOf (SynapseBus.publish now st msg).2 sub.agent_name =
      boundInbox (inboxOf st sub.agent_name) msg := by
  unfold inboxOf
  rw [publish_snd_inbox]
  unfold subsOf
  rw [hsub]
  simp only [Option.getD_some, List.foldl_cons, List.foldl_nil]
  rw [deliverOne_pos msg _ sub hm]
  rw [lookupA_upsert_self]
  rfl

theorem publishAll_inbox_single (now : Int) (msgs : List SynapseMessage) :
    ∀ (st : BusState) (c : String) (sub : Subscription),
      lookupA c st.subscriptions = some [sub] →
      (∀ m ∈ msgs, m.channel = c ∧ sub.matches m = true) →
      inboxOf (SynapseBus.publishAll now st msgs) sub.agent_name =
        msgs.foldl boundInbox (inboxOf st sub.agent_name) := by
  induction msgs with
  | nil => intro st c sub _ _; rfl
  | cons m rest ih =>
    intro st c sub hsub hall
    obtain ⟨hch, hm⟩ := hall m (List.mem_cons_self m rest)
    have hstep : inboxOf (SynapseBus.publish now st m).2 sub.agent_name =
        boundInbox (inboxOf st sub.agent_name) m :=
      publish_inbox_single now st m sub (by rw [hch]; exact hsub) hm
    have hrest : lookupA c (SynapseBus.publish now st m).2.subscriptions = some [sub] := by
      rw [publish_snd_subscriptions]
      exact hsub
    show inboxOf (SynapseBus.publishAll now (SynapseBus.publish now st m).2 rest)
        sub.agent_name = _
    rw [ih (SynapseBus.publish now st m).2 c sub hrest
      (fun m' hm' => hall m' (List.mem_cons_of_mem m hm'))]
    rw [hstep]
    rfl

/-- C4: with a single always-matching subscription for agent `a` on
channel `c` and an initially empty inbox, publishing more than 100
messages to `c` leaves exactly the trailing 100 of them, in arrival
order, in `a`'s inbox (oldest evicted first), and after every
intermediate publish the inbox never holds more than 100 entries. -/
theorem claim_c4_inbox_capacity :
    ∀ (now : Int) (st : BusState) (c : String) (sub : Subscription)
      (msgs : List SynapseMessage),
      lookupA c st.subscriptions = some [sub] →
      inboxOf st sub.agent_name = [] →
      (∀ m ∈ msgs, m.channel = c ∧ sub.matches m = true) →
      100 < msgs.length →
      inboxOf (SynapseBus.publishAll now st msgs) sub.agent_name =
        msgs.drop (msgs.length - 100) ∧
      ∀ n : Nat,
        (inboxOf (SynapseBus.publishAll now st (msgs.take n)) sub.agent_name).length ≤ 100 := by
  intro now st c sub msgs hsub hinit hall _hlen
  have hM : maxInbox = 100 := rfl
  constructor
  · rw [publishAll_inbox_single now msgs st c sub hsub hall, hinit,
      foldl_boundInbox msgs [] (by simp)]
    simp [hM]
  · intro n
    rw [publishAll_inbox_single now (msgs.take n) st c sub hsub
      (fun m hm => hall m (List.mem_of_mem_take hm)), hinit,
      foldl_boundInbox (msgs.take n) [] (by simp)]
    simp only [List.nil_append, List.length_drop]
    omega

theorem claim_c4_witness :
    inboxOf (SynapseBus.publishAll 0 stC4 (List.replicate 101 mC4)) subC4.agent_name =
      (List.replicate 101 mC4).drop ((List.replicate 101 mC4).length - 100) ∧
    ∀ n : Nat,
      (inboxOf (SynapseBus.publishAll 0 stC4 ((List.replicate 101 mC4).take n))
        subC4.agent_name).length ≤ 100 :=
  claim_c4_inbox_capacity 0 stC4 "#m" subC4 (List.replicate 101 mC4)
    rfl rfl
    (fun m hm => by
      rw [List.eq_of_mem_replicate hm]
      exact ⟨rfl, rfl⟩)
    (by simp)

/-- C9 fails on the code: `stats()["agents_online"]` is computed with no
status filter, so it counts every registered agent.  In `busC9` the only
registered agent is offline (registered, then unregistered), yet `stats`
reports `agents_online = 1` while the registry's online listing is empty. -/
theorem claim_c9_agents_online_is_all_registered :
    (SynapseBus.stats busC9).agents_online = 1 ∧
    (AgentRegistry.list_agents busC9.registry (some AgentStatus.online)).length = 0 ∧
    (AgentRegistry.list_agents busC9.registry none).length = 1 := by
  refine ⟨rfl, rfl, rfl⟩

/-- C10: a `limit` of `0` does not select zero entries — the trailing
slice `msgs[-limit:]` with `limit = 0` is the whole list — so
`get_inbox` and `get_history` return the entire (channel-filtered)
buffer. -/
theorem claim_c10_limit_zero_returns_everything :
    ∀ (st : BusState) (a c : String),
      (SynapseBus.get_inbox st a 0 none = (lookupA a st.inbox).getD []) ∧
      (c ≠ "" → SynapseBus.get_inbox st a 0 (some c) =
        ((lookupA a st.inbox).getD []).filter (fun m => m.channel == c)) ∧
      (SynapseBus.get_history st none 0 none = st.message_history) ∧
      (c ≠ "" → SynapseBus.get_history st (some c) 0 none =
        st.message_history.filter (fun m => m.channel == c)) := by
  intro st a c
  refine ⟨?_, fun hc => ?_, ?_, fun hc => ?_⟩
  · simp [SynapseBus.get_inbox, pyDropSlice_zero]
  · simp [SynapseBus.get_inbox, pyDropSlice_zero, hc]
  · simp [SynapseBus.get_history, pyDropSlice_zero]
  · simp [SynapseBus.get_history, pyDropSlice_zero, hc]

theorem claim_c10_witness :
    SynapseBus.get_inbox busC10 "a" 0 (some "#alerts") =
      ((lookupA "a" busC10.inbox).getD []).filter (fun m => m.channel == "#alerts") ∧
    SynapseBus.get_history busC10 (some "#alerts") 0 none =
      busC10.message_history.filter (fun m => m.channel == "#alerts") :=
  ⟨(claim_c10_limit_zero_returns_everything busC10 "a" "#alerts").2.1 (by decide),
   (claim_c10_limit_zero_returns_everything busC10 "a" "#alerts").2.2.2 (by decide)⟩
